import Mathlib

set_option linter.unusedVariables false

/-!
Shallow embedding of the session gate and route authorization of the
eduPlatform frontend (src/src/App.tsx, src/src/components/Login.tsx, and the
teacher-guarded App variant in src/unnamed/part_001), together with theorems
settling the spec claims about them.

Modelling conventions:
* A stored credential is a `Token`: either `malformed` (its payload segment
  fails to decode — `jwtDecode` in App.tsx and `JSON.parse(atob(...))` in
  Login.tsx both throw on it) or `wellFormed p` carrying the decoded payload.
* JS truthiness is modelled explicitly: a string is truthy iff non-empty,
  a number is truthy iff non-zero, an absent field is falsy.
* Time is in integer seconds since epoch (`Nat`); `Date.now() / 1000` is the
  `now` parameter.
* Browser local storage is the single slot `Option Token`; stateful code is
  state passing: each operation returns (result, final storage contents).
-/

namespace EduPlatform

/-- Decoded JWT payload, from `interface JwtPayload` in App.tsx:
`email?: string; sub?: string; role?: string; exp?: number; userId?: number`. -/
structure JwtPayload where
  email : Option String
  sub : Option String
  role : Option String
  exp : Option Nat
  userId : Option Int
deriving DecidableEq, Repr

/-- A credential string, abstracted by whether its payload segment decodes. -/
inductive Token where
  | malformed (raw : String) : Token
  | wellFormed (payload : JwtPayload) : Token
deriving DecidableEq, Repr

/-- `jwtDecode` (and Login.tsx's `JSON.parse(atob(token.split('.')[1]))`):
returns the decoded payload, `none` when decoding throws. -/
def jwtDecode : Token → Option JwtPayload
  | Token.malformed _ => none
  | Token.wellFormed p => some p

/-- JS truthiness of an optional string: present and non-empty. -/
def strTruthy : Option String → Bool
  | some s => decide (s ≠ "")
  | none => false

/-- JS `a || b || null` on optional strings. -/
def jsOrStr (a b : Option String) : Option String :=
  if strTruthy a then a else if strTruthy b then b else none

/-- `isValidRole` from App.tsx: the value is a string equal to one of
STUDENT, TEACHER, ADMIN. -/
def isValidRole : Option String → Bool
  | some r => decide (r = "STUDENT" ∨ r = "TEACHER" ∨ r = "ADMIN")
  | none => false

/-- The in-memory user (`interface User` in App.tsx). The TypeScript type
declares `role: Role`, but the Login.tsx path stores the raw claim string
after an unchecked cast, so at runtime the slot holds an arbitrary string;
`isValidRole` captures membership in the declared enum. -/
structure User where
  email : String
  role : String
  userId : Option Int
deriving DecidableEq, Repr

/-- `decoded.exp && decoded.exp < currentTime` from App.tsx: the `exp` claim
is truthy (present and non-zero) and strictly below the current time. -/
def isExpired (exp : Option Nat) (now : Nat) : Bool :=
  match exp with
  | some e => decide (e ≠ 0 ∧ e < now)
  | none => false

/-- The App.tsx startup `useEffect` (lines 46–83): reads the storage slot,
returns the resulting user (`setUser` argument) and the final storage
contents. `localStorage.removeItem('token')` on every failure path. -/
def resolveIdentity (storage : Option Token) (now : Nat) :
    Option User × Option Token :=
  match storage with
  | none => (none, none)
  | some token =>
    match jwtDecode token with
    | none => (none, none)
    | some decoded =>
      if isExpired decoded.exp now then
        (none, none)
      else
        match jsOrStr decoded.sub decoded.email, decoded.role with
        | some userEmail, some r =>
          if isValidRole (some r) then
            (some ⟨userEmail, r, decoded.userId⟩, some token)
          else
            (none, none)
        | some _, none => (none, none)
        | none, _ => (none, none)

/-- Body of the login HTTP response: `await response.text()`, which is either
empty (`!token` throws) or a token string. -/
inductive TokenBody where
  | empty : TokenBody
  | tok (t : Token) : TokenBody
deriving DecidableEq, Repr

/-- Login HTTP response: `err` models `!response.ok`. -/
inductive HttpResponse where
  | err : HttpResponse
  | ok (body : TokenBody) : HttpResponse
deriving DecidableEq, Repr

/-- `handleSubmit` from Login.tsx (lines 20–64), after the fetch resolved to
`resp`, starting from storage contents `pre`. Returns the `onLogin` argument
(`none` when no login happened) and the final storage contents. The `catch`
runs `localStorage.removeItem('token')`, so every failure path ends with an
empty slot regardless of `pre`; the success path ends with the new token
(`localStorage.setItem('token', token)`). The payload check is
`if (!payload.sub || !payload.role) throw`: truthiness only, no role-enum or
expiry check. -/
def handleSubmit (pre : Option Token) (resp : HttpResponse) :
    Option User × Option Token :=
  match resp with
  | HttpResponse.err => (none, none)
  | HttpResponse.ok TokenBody.empty => (none, none)
  | HttpResponse.ok (TokenBody.tok t) =>
    match jwtDecode t with
    | none => (none, none)
    | some payload =>
      match payload.sub, payload.role with
      | some s, some r =>
        if strTruthy (some s) && strTruthy (some r) then
          (some ⟨s, r, payload.userId⟩, some t)
        else
          (none, none)
      | some _, none => (none, none)
      | none, _ => (none, none)

/-- The validation the spec's invariant describes: the credential decodes,
is not expired at `now`, has a truthy subject (`sub` falling back to
`email`), and a role among STUDENT, TEACHER, ADMIN. -/
def credentialValidates (t : Token) (now : Nat) : Bool :=
  match jwtDecode t with
  | none => false
  | some p =>
    !(isExpired p.exp now) && strTruthy (jsOrStr p.sub p.email) && isValidRole p.role

/-! ## Route authorization

The requested view is a matched route of the `Routes` table; path parameters
are kept as strings so that redirect targets record their concrete values.
`unmatchedInner` is the catch-all nested under `/` (inside `ProtectedRoute`),
`unmatchedOuter` the top-level catch-all. -/

/-- A matched route of the App.tsx route table. -/
inductive View where
  | login : View
  | home : View
  | course (courseId : String) : View
  | assignment (courseId assignmentId : String) : View
  | createAssignment (courseId : String) : View
  | submissions (courseId assignmentId : String) : View
  | grading (courseId assignmentId submissionId : String) : View
  | unmatchedInner : View
  | unmatchedOuter : View
deriving DecidableEq, Repr

/-- What a route's `element` renders: a concrete page component, a
`Navigate` redirect, or the loading placeholder. -/
inductive Element where
  | loading : Element
  | navigateLogin : Element
  | navigateRoot : Element
  | navigateTo (target : View) : Element
  | loginForm : Element
  | homePage (role : String) (userId : Option Int) : Element
  | teacherCoursePage : Element
  | studentCoursePage : Element
  | studentAssignmentPage : Element
  | teacherAssignmentPage : Element
  | submissionGradingPage : Element
  | createAssignmentPage (userRole : Option String) : Element
  | contentNotFound : Element
  | pageNotFound : Element
deriving DecidableEq, Repr

/-- `user?.role === 'TEACHER'`. -/
def isTeacher : Option User → Bool
  | some u => decide (u.role = "TEACHER")
  | none => false

/-- `user?.role || 'STUDENT'` (Home's `role` prop). -/
def homeRole : Option User → String
  | some u => if u.role = "" then "STUDENT" else u.role
  | none => "STUDENT"

/-- `user?.userId || undefined` (Home's `userId` prop; a zero id is falsy). -/
def homeUserId : Option User → Option Int
  | some u =>
    match u.userId with
    | some n => if n = 0 then none else some n
    | none => none
  | none => none

/-- `user?.role || null` (CreateAssignmentPage's `userRole` prop in the
guarded App variant). -/
def roleOrNull : Option User → Option String
  | some u => if u.role = "" then none else some u.role
  | none => none

/-- `ProtectedRoute` from App.tsx: loading box while `loadingUser`, redirect
to `/login` when there is no user, otherwise the wrapped children. -/
def protectedRoute (loadingUser : Bool) (user : Option User)
    (children : Element) : Element :=
  if loadingUser then Element.loading
  else
    match user with
    | none => Element.navigateLogin
    | some _ => children

/-- The `Routes` table of src/src/App.tsx, as the element rendered for a
matched route. The teacher redirect on the assignment route is the relative
`Navigate to='submissions'`, which resolves against the current params.
There is no `create-assignment` route in this variant, so that path falls
through to the nested catch-all. The submissions and grading routes carry no
role check. -/
def renderRoute (loadingUser : Bool) (user : Option User) : View → Element
  | View.login =>
    if user.isSome && !loadingUser then Element.navigateRoot else Element.loginForm
  | View.home =>
    protectedRoute loadingUser user (Element.homePage (homeRole user) (homeUserId user))
  | View.course _ =>
    protectedRoute loadingUser user
      (if isTeacher user then Element.teacherCoursePage else Element.studentCoursePage)
  | View.assignment c a =>
    protectedRoute loadingUser user
      (if isTeacher user then Element.navigateTo (View.submissions c a)
       else Element.studentAssignmentPage)
  | View.createAssignment _ =>
    protectedRoute loadingUser user Element.contentNotFound
  | View.submissions _ _ =>
    protectedRoute loadingUser user Element.teacherAssignmentPage
  | View.grading _ _ _ =>
    protectedRoute loadingUser user Element.submissionGradingPage
  | View.unmatchedInner =>
    protectedRoute loadingUser user Element.contentNotFound
  | View.unmatchedOuter => Element.pageNotFound

/-- The `Routes` table of the App variant in src/unnamed/part_001, which
guards the submissions and grading routes. Its non-teacher redirect target
is the template literal `/course/:courseId/assignment/:assignmentId` with no
interpolation, so the target's params are the literal strings `:courseId`
and `:assignmentId`, not the current route's values. -/
def renderRouteGuarded (loadingUser : Bool) (user : Option User) : View → Element
  | View.login =>
    if user.isSome && !loadingUser then Element.navigateRoot else Element.loginForm
  | View.home =>
    protectedRoute loadingUser user (Element.homePage (homeRole user) (homeUserId user))
  | View.course _ =>
    protectedRoute loadingUser user
      (if isTeacher user then Element.teacherCoursePage else Element.studentCoursePage)
  | View.assignment c a =>
    protectedRoute loadingUser user
      (if isTeacher user then Element.navigateTo (View.submissions c a)
       else Element.studentAssignmentPage)
  | View.createAssignment _ =>
    protectedRoute loadingUser user (Element.createAssignmentPage (roleOrNull user))
  | View.submissions _ _ =>
    protectedRoute loadingUser user
      (if isTeacher user then Element.teacherAssignmentPage
       else Element.navigateTo (View.assignment ":courseId" ":assignmentId"))
  | View.grading _ _ _ =>
    protectedRoute loadingUser user
      (if isTeacher user then Element.submissionGradingPage
       else Element.navigateTo (View.assignment ":courseId" ":assignmentId"))
  | View.unmatchedInner =>
    protectedRoute loadingUser user Element.contentNotFound
  | View.unmatchedOuter => Element.pageNotFound

/-- Views rendered inside `ProtectedRoute` (everything nested under `/`). -/
def isProtectedView : View → Bool
  | View.login => false
  | View.unmatchedOuter => false
  | _ => true

/-! ## Concrete payloads and tokens used in witnesses and counterexamples -/

/-- A payload with valid subject, recognized role, far-future expiry. -/
def alicePayload : JwtPayload :=
  ⟨none, some "alice@example.com", some "TEACHER", some 2000000000, some 7⟩

def aliceToken : Token := Token.wellFormed alicePayload

/-- A payload whose role is outside the recognized enum. -/
def hackPayload : JwtPayload :=
  ⟨none, some "mallory@example.com", some "HACKER", none, none⟩

def hackToken : Token := Token.wellFormed hackPayload

/-- A payload whose `exp` is in the past (and non-zero). -/
def expiredPayload : JwtPayload :=
  ⟨none, some "bob@example.com", some "STUDENT", some 50, none⟩

def expiredToken : Token := Token.wellFormed expiredPayload

/-- A payload whose `exp` field is present and equal to 0. -/
def expZeroPayload : JwtPayload :=
  ⟨none, some "zed@example.com", some "STUDENT", some 0, none⟩

def expZeroToken : Token := Token.wellFormed expZeroPayload

/-- A payload whose `sub` is present but empty, with an `email` fallback. -/
def emptySubPayload : JwtPayload :=
  ⟨some "fallback@example.com", some "", some "STUDENT", none, none⟩

def emptySubToken : Token := Token.wellFormed emptySubPayload

/-- A payload with a subject but no role field. -/
def noRolePayload : JwtPayload :=
  ⟨none, some "carol@example.com", none, none, none⟩

/-- An authenticated STUDENT user. -/
def studentUser : User := ⟨"student@example.com", "STUDENT", none⟩

/-! ## Helper lemmas -/

/-- `resolveIdentity` either leaves storage as it found it, or fails and
leaves the slot empty. -/
lemma resolveIdentity_storage_cases (s : Option Token) (now : Nat) :
    (resolveIdentity s now).2 = s ∨ resolveIdentity s now = (none, none) := by
  rcases s with _ | t
  · exact Or.inr rfl
  rcases t with raw | p
  · exact Or.inr rfl
  unfold resolveIdentity jwtDecode
  by_cases hE : isExpired p.exp now
  · simp [hE]
  · simp only [hE, if_false, Bool.false_eq_true]
    cases hj : jsOrStr p.sub p.email with
    | none => simp
    | some userEmail =>
      cases hr : p.role with
      | none => simp
      | some r =>
        by_cases hv : isValidRole (some r)
        · simp [hv]
        · simp [hv]

/-- If `jsOrStr` produces a value, that value is a truthy string. -/
lemma jsOrStr_some_truthy (a b : Option String) (x : String)
    (h : jsOrStr a b = some x) : strTruthy (some x) = true := by
  unfold jsOrStr at h
  split at h
  · next ha => rw [← h]; exact ha
  · split at h
    · next hb => rw [← h]; exact hb
    · exact absurd h (by simp)

/-- Anatomy of a successful startup resolution: the stored token decodes,
is unexpired, its subject and role land in the returned user, and the role
passed `isValidRole`. -/
lemma resolveIdentity_success_shape (s : Option Token) (now : Nat) (u : User)
    (h : (resolveIdentity s now).1 = some u) :
    ∃ t p, s = some t ∧ jwtDecode t = some p ∧ isExpired p.exp now = false ∧
      jsOrStr p.sub p.email = some u.email ∧ p.role = some u.role ∧
      isValidRole (some u.role) = true ∧ u.userId = p.userId := by
  rcases s with _ | t
  · exact absurd h (by simp [resolveIdentity])
  rcases t with raw | p
  · exact absurd h (by simp [resolveIdentity, jwtDecode])
  refine ⟨Token.wellFormed p, p, rfl, rfl, ?_⟩
  unfold resolveIdentity jwtDecode at h
  by_cases hE : isExpired p.exp now
  · simp [hE] at h
  simp only [hE, if_false, Bool.false_eq_true] at h
  refine ⟨by simpa using hE, ?_⟩
  cases hj : jsOrStr p.sub p.email with
  | none => rw [hj] at h; simp at h
  | some userEmail =>
    rw [hj] at h
    cases hr : p.role with
    | none => rw [hr] at h; simp at h
    | some r =>
      rw [hr] at h
      by_cases hv : isValidRole (some r)
      · simp only [hv, if_true] at h
        obtain rfl : u = ⟨userEmail, r, p.userId⟩ := by
          simpa using h.symm
        exact ⟨rfl, rfl, hv, rfl⟩
      · simp [hv] at h

/-- Anatomy of a successful login exchange: the response was `ok` with a
decodable token whose `sub` and `role` are truthy and become the user's
fields verbatim — no role-enum membership or expiry is checked. -/
lemma handleSubmit_success_shape (pre : Option Token) (resp : HttpResponse)
    (u : User) (h : (handleSubmit pre resp).1 = some u) :
    ∃ t p, resp = HttpResponse.ok (TokenBody.tok t) ∧ jwtDecode t = some p ∧
      p.sub = some u.email ∧ u.email ≠ "" ∧ p.role = some u.role ∧
      u.role ≠ "" ∧ u.userId = p.userId ∧ (handleSubmit pre resp).2 = some t := by
  rcases resp with _ | body
  · exact absurd h (by simp [handleSubmit])
  rcases body with _ | t
  · exact absurd h (by simp [handleSubmit])
  rcases t with raw | p
  · exact absurd h (by simp [handleSubmit, jwtDecode])
  refine ⟨Token.wellFormed p, p, rfl, rfl, ?_⟩
  cases hs : p.sub with
  | none => exact absurd h (by simp [handleSubmit, jwtDecode, hs])
  | some s =>
    cases hr : p.role with
    | none => exact absurd h (by simp [handleSubmit, jwtDecode, hs, hr])
    | some r =>
      by_cases htr : (strTruthy (some s) && strTruthy (some r)) = true
      · have hval : handleSubmit pre (HttpResponse.ok (TokenBody.tok (Token.wellFormed p))) =
            (some ⟨s, r, p.userId⟩, some (Token.wellFormed p)) := by
          simp [handleSubmit, jwtDecode, hs, hr, htr]
        rw [hval] at h
        obtain rfl : u = ⟨s, r, p.userId⟩ := by simpa using h.symm
        have hs' : s ≠ "" := by
          have := ((Bool.and_eq_true _ _).mp htr).1
          simpa [strTruthy] using this
        have hr' : r ≠ "" := by
          have := ((Bool.and_eq_true _ _).mp htr).2
          simpa [strTruthy] using this
        exact ⟨rfl, hs', rfl, hr', rfl, by rw [hval]⟩
      · exact absurd h (by simp [handleSubmit, jwtDecode, hs, hr, htr])

/-! ## Claim theorems -/

/-- C1 (amended): a non-null Identity arises only from a credential that
decoded successfully with a truthy subject. On the startup-resolution path
the credential additionally passed the full validation (unexpired, subject
present, role in the recognized enum); the login-exchange path checks only
that `sub` and `role` are truthy — it verifies neither role-enum membership
nor expiry. -/
theorem identity_provenance (s pre : Option Token) (now : Nat)
    (resp : HttpResponse) :
    (∀ u, (resolveIdentity s now).1 = some u →
      ∃ t, s = some t ∧ credentialValidates t now = true) ∧
    (∀ u, (handleSubmit pre resp).1 = some u →
      ∃ t p, resp = HttpResponse.ok (TokenBody.tok t) ∧ jwtDecode t = some p ∧
        p.sub = some u.email ∧ u.email ≠ "" ∧ p.role = some u.role ∧
        u.role ≠ "") := by
  constructor
  · intro u h
    obtain ⟨t, p, rfl, hdec, hexp, hsub, hrole, hvr, _⟩ :=
      resolveIdentity_success_shape s now u h
    refine ⟨t, rfl, ?_⟩
    have h1 : strTruthy (jsOrStr p.sub p.email) = true := by
      rw [hsub]; exact jsOrStr_some_truthy p.sub p.email u.email hsub
    simp [credentialValidates, hdec, hexp, h1, hrole, hvr]
  · intro u h
    obtain ⟨t, p, hresp, hdec, hsub, hs', hrole, hr', _, _⟩ :=
      handleSubmit_success_shape pre resp u h
    exact ⟨t, p, hresp, hdec, hsub, hs', hrole, hr'⟩

/-- C1 witness: the startup path applied to a valid TEACHER credential. -/
theorem identity_provenance_witness :
    ∃ t, (some aliceToken : Option Token) = some t ∧
      credentialValidates t 100 = true :=
  (identity_provenance (some aliceToken) none 100 HttpResponse.err).1
    ⟨"alice@example.com", "TEACHER", some 7⟩ (by decide)

/-- C1 counterexample: the login exchange accepts a token whose role is
HACKER — outside the recognized enum — and populates Identity from it, even
though validation of that credential fails. -/
theorem login_accepts_unrecognized_role :
    (handleSubmit none (HttpResponse.ok (TokenBody.tok hackToken))).1 =
      some ⟨"mallory@example.com", "HACKER", none⟩ ∧
    isValidRole (some "HACKER") = false ∧
    credentialValidates hackToken 0 = false := by decide

/-- C2: evaluation at the failing input. In src/src/App.tsx a STUDENT
session requesting the submissions or grading view gets the teacher page
rendered, with no redirect; in the guarded variant (src/unnamed/part_001)
the redirect goes to the literal placeholder path
`/course/:courseId/assignment/:assignmentId`, not to the current
assignment's own path. -/
theorem student_reaches_teacher_views :
    renderRoute false (some studentUser) (View.submissions "1" "2") =
      Element.teacherAssignmentPage ∧
    renderRoute false (some studentUser) (View.grading "1" "2" "3") =
      Element.submissionGradingPage ∧
    renderRouteGuarded false (some studentUser) (View.submissions "1" "2") =
      Element.navigateTo (View.assignment ":courseId" ":assignmentId") := by
  decide

/-- C3 (amended): a decodable payload whose `exp` is present, non-zero and
strictly below the current time resolves to `null` with the storage slot
cleared; `exp = 0` is falsy in the guard `decoded.exp && decoded.exp <
currentTime` and is treated as if no expiration were present. -/
theorem resolveIdentity_expired_clears (t : Token) (p : JwtPayload)
    (e now : Nat) (hdec : jwtDecode t = some p) (hexp : p.exp = some e)
    (hne : e ≠ 0) (hlt : e < now) :
    resolveIdentity (some t) now = (none, none) := by
  rcases t with raw | q
  · simp [jwtDecode] at hdec
  · have hq : q = p := by simpa [jwtDecode] using hdec
    subst hq
    have hE : isExpired q.exp now = true := by
      rw [hexp]
      exact decide_eq_true ⟨hne, hlt⟩
    simp [resolveIdentity, jwtDecode, hE]

/-- C3 witness: a payload with `exp = 50` resolved at time 100. -/
theorem resolveIdentity_expired_clears_witness :
    resolveIdentity (some expiredToken) 100 = (none, none) :=
  resolveIdentity_expired_clears expiredToken expiredPayload 50 100 rfl rfl
    (by decide) (by decide)

/-- C3 counterexample: a payload with `exp` present and equal to 0, at
current time 100 (so `exp` is strictly less than the current time), is NOT
treated as expired: resolution returns a full Identity and keeps the
credential in storage. -/
theorem exp_zero_not_treated_as_expired :
    expZeroPayload.exp = some 0 ∧ (0 : Nat) < 100 ∧
    (resolveIdentity (some expZeroToken) 100).1 =
      some ⟨"zed@example.com", "STUDENT", none⟩ ∧
    (resolveIdentity (some expZeroToken) 100).2 = some expZeroToken := by
  decide

/-- C4 (amended): for a decodable, non-expired payload with a recognized
role, the resulting Identity's email is the `sub` claim whenever `sub` is
present and non-empty (even alongside an `email` claim), and falls back to
the `email` claim when `sub` is absent or empty. -/
theorem resolveIdentity_subject_preference (t : Token) (p : JwtPayload)
    (now : Nat) (r : String) (hdec : jwtDecode t = some p)
    (hexp : isExpired p.exp now = false) (hrole : p.role = some r)
    (hvr : isValidRole (some r) = true) :
    (∀ s, p.sub = some s → s ≠ "" →
      (resolveIdentity (some t) now).1 = some ⟨s, r, p.userId⟩) ∧
    (∀ e, strTruthy p.sub = false → p.email = some e → e ≠ "" →
      (resolveIdentity (some t) now).1 = some ⟨e, r, p.userId⟩) := by
  rcases t with raw | q
  · simp [jwtDecode] at hdec
  have hq : q = p := by simpa [jwtDecode] using hdec
  subst hq
  constructor
  · intro s hs hs'
    have hj : jsOrStr q.sub q.email = some s := by
      unfold jsOrStr
      rw [hs]
      simp [strTruthy, hs']
    simp [resolveIdentity, jwtDecode, hexp, hj, hrole, hvr]
  · intro e hst he he'
    have hj : jsOrStr q.sub q.email = some e := by
      unfold jsOrStr
      rw [hst, he]
      simp [strTruthy, he']
    simp [resolveIdentity, jwtDecode, hexp, hj, hrole, hvr]

/-- C4 witness: a token whose `sub` is present and non-empty resolves to an
Identity carrying that subject, role and user id. -/
theorem resolveIdentity_subject_preference_witness :
    (resolveIdentity (some aliceToken) 100).1 =
      some ⟨"alice@example.com", "TEACHER", some 7⟩ :=
  (resolveIdentity_subject_preference aliceToken alicePayload 100 "TEACHER"
      rfl (by decide) rfl (by decide)).1
    "alice@example.com" rfl (by decide)

/-- C4 counterexample: a payload whose `sub` is present (the empty string)
alongside an `email` claim resolves to an Identity whose email is the
`email` claim, not the present `sub`. -/
theorem present_empty_sub_falls_back_to_email :
    emptySubPayload.sub = some "" ∧
    (resolveIdentity (some emptySubToken) 10).1 =
      some ⟨"fallback@example.com", "STUDENT", none⟩ ∧
    (resolveIdentity (some emptySubToken) 10).1 ≠
      some ⟨"", "STUDENT", none⟩ := by decide

/-- C5: a stored credential whose payload segment fails to decode resolves
to `null` with the storage slot cleared. The embedding of the `try/catch`
is a total function, so no exception propagates and no partially populated
Identity is produced on any failure path. -/
theorem resolveIdentity_decode_failure (raw : String) (now : Nat) :
    resolveIdentity (some (Token.malformed raw)) now = (none, none) := rfl

/-- C6: a decodable, non-expired payload whose subject is missing, or whose
role is missing or outside STUDENT, TEACHER, ADMIN, resolves to `null` with
the storage slot cleared. -/
theorem resolveIdentity_invalid_payload_clears (t : Token) (p : JwtPayload)
    (now : Nat) (hdec : jwtDecode t = some p)
    (hexp : isExpired p.exp now = false)
    (hbad : (p.sub = none ∧ p.email = none) ∨ p.role = none ∨
      (∀ r, p.role = some r → isValidRole (some r) = false)) :
    resolveIdentity (some t) now = (none, none) := by
  rcases t with raw | q
  · simp [jwtDecode] at hdec
  have hq : q = p := by simpa [jwtDecode] using hdec
  subst hq
  rcases hbad with ⟨hs, he⟩ | hrole | hinv
  · have hj : jsOrStr q.sub q.email = none := by
      unfold jsOrStr
      rw [hs, he]
      simp [strTruthy]
    simp [resolveIdentity, jwtDecode, hexp, hj]
  · cases hj : jsOrStr q.sub q.email with
    | none => simp [resolveIdentity, jwtDecode, hexp, hj]
    | some x => simp [resolveIdentity, jwtDecode, hexp, hj, hrole]
  · cases hj : jsOrStr q.sub q.email with
    | none => simp [resolveIdentity, jwtDecode, hexp, hj]
    | some x =>
      cases hr : q.role with
      | none => simp [resolveIdentity, jwtDecode, hexp, hj, hr]
      | some r => simp [resolveIdentity, jwtDecode, hexp, hj, hr, hinv r hr]

/-- C6 witness: a payload with a subject but no role field resolves to
`(null, empty storage)`. -/
theorem resolveIdentity_invalid_payload_clears_witness :
    resolveIdentity (some (Token.wellFormed noRolePayload)) 100 =
      (none, none) :=
  resolveIdentity_invalid_payload_clears (Token.wellFormed noRolePayload)
    noRolePayload 100 rfl (by decide) (Or.inr (Or.inl rfl))

/-- C7 (amended): while the session is still resolving (`loadingUser`),
every view under the authenticated area renders the neutral loading
indicator — no redirect and no requested view; the login view, however,
renders the login form during resolution (still without redirecting). -/
theorem resolving_renders_loader (user : Option User) (v : View) :
    (isProtectedView v = true → renderRoute true user v = Element.loading) ∧
    renderRoute true user View.login = Element.loginForm := by
  constructor
  · intro h
    cases v <;> simp [isProtectedView] at h <;>
      simp [renderRoute, protectedRoute]
  · cases user <;> simp [renderRoute]

/-- C7 witness: the home view during resolution shows the loader. -/
theorem resolving_renders_loader_witness :
    isProtectedView View.home = true ∧
    renderRoute true none View.home = Element.loading :=
  ⟨rfl, (resolving_renders_loader none View.home).1 rfl⟩

/-- C7 counterexample: while resolving, the requested login view renders
the login form itself — not a neutral loading indicator. -/
theorem login_view_rendered_while_resolving :
    renderRoute true none View.login = Element.loginForm ∧
    Element.loginForm ≠ Element.loading := by decide

/-- C8: resolving twice at the same current time, the second call operating
on whatever storage the first call left behind, yields the same
identity-or-null result both times. -/
theorem resolveIdentity_idempotent (s : Option Token) (now : Nat) :
    (resolveIdentity (resolveIdentity s now).2 now).1 =
      (resolveIdentity s now).1 := by
  rcases resolveIdentity_storage_cases s now with h | h
  · rw [h]
  · rw [h]
    rfl

/-- C9: every failed login attempt — non-success response, empty token
body, undecodable token, or missing/empty `sub` or `role` — leaves the
storage slot empty, for every pre-existing storage state (the `catch`
removes the stored token unconditionally, wiping even a valid credential
stored before the attempt). -/
theorem handleSubmit_failure_empties_storage (pre : Option Token)
    (resp : HttpResponse) (h : (handleSubmit pre resp).1 = none) :
    (handleSubmit pre resp).2 = none := by
  rcases resp with _ | body
  · rfl
  rcases body with _ | t
  · rfl
  rcases t with raw | p
  · rfl
  cases hs : p.sub with
  | none => simp [handleSubmit, jwtDecode, hs]
  | some s =>
    cases hr : p.role with
    | none => simp [handleSubmit, jwtDecode, hs, hr]
    | some r =>
      by_cases htr : (strTruthy (some s) && strTruthy (some r)) = true
      · exact absurd h (by simp [handleSubmit, jwtDecode, hs, hr, htr])
      · simp [handleSubmit, jwtDecode, hs, hr, htr]

/-- C9 witness: a failed (non-ok) login attempt starting from a storage
slot that held a valid TEACHER credential ends with the slot empty. -/
theorem handleSubmit_failure_empties_storage_witness :
    (handleSubmit (some aliceToken) HttpResponse.err).2 = none :=
  handleSubmit_failure_empties_storage (some aliceToken) HttpResponse.err rfl

/-- C10: when resolution succeeds, the storage slot still holds exactly the
credential it held before — the success path never touches storage. -/
theorem resolveIdentity_success_frame (t : Token) (now : Nat) (u : User)
    (h : (resolveIdentity (some t) now).1 = some u) :
    (resolveIdentity (some t) now).2 = some t := by
  rcases resolveIdentity_storage_cases (some t) now with h2 | h2
  · exact h2
  · rw [h2] at h
    exact absurd h (by simp)

/-- C10 witness: a valid TEACHER credential survives resolution unchanged. -/
theorem resolveIdentity_success_frame_witness :
    (resolveIdentity (some aliceToken) 100).2 = some aliceToken :=
  resolveIdentity_success_frame aliceToken 100
    ⟨"alice@example.com", "TEACHER", some 7⟩ (by decide)

end EduPlatform
